import Mathlib

/-!
Shallow embedding of the NovaStudio AI backend (src/main.py) and proofs
about its project / render-job behaviour.

Modelling conventions:
- Pydantic models become Lean structures; Python Optional becomes Option,
  field defaults become Lean default field values.
- The free-form timeline dicts that the code constructs and that clients may
  supply are modelled by the Track / Timeline structures holding exactly the
  fields appearing in main.py, plus the optional source field a client track
  may carry.
- The Mongo database becomes an association-list store, keyed by the string
  ids that create_document returns; create_document generates a fresh
  ObjectId, modelled by passing the new id explicitly (freshness is a
  hypothesis where a theorem needs it) and inserting at the front of the
  list (List.lookup sees the most recent write).
- Python string slicing script[:400] slices the first 400 code points; a
  Lean String is a list of code points, so it is List.take 400 on the data.
- FastAPI HTTPException responses are modelled as structured error results
  of a total function, matching how the framework turns them into HTTP
  responses at the interface.
-/

/-- A timeline track as the dicts built in script_to_video
(main.py lines 244-248) and as a client may supply one: a type tag plus the
optional fields used there, and an optional source media reference. -/
structure Track where
  type : String
  language : Option String := none
  style : Option String := none
  enabled : Option Bool := none
  source : Option String := none
deriving Repr, DecidableEq

/-- The timeline dict shape used by main.py: a list of tracks and an
optional script_excerpt (main.py lines 243-250). -/
structure Timeline where
  tracks : List Track := []
  script_excerpt : Option String := none
deriving Repr, DecidableEq

/-- The settings dict as defaulted in Project (main.py lines 55-60) and as
built in script_to_video (line 251). -/
structure Settings where
  resolution : String
  fps : Nat
  aspect : String
  platforms : List String
deriving Repr, DecidableEq

/-- Default settings factory of the Project model (main.py lines 55-60). -/
def defaultSettings : Settings :=
  { resolution := "1080p", fps := 30, aspect := "16:9",
    platforms := ["youtube", "tiktok", "instagram"] }

/-- Project model (main.py lines 48-60). -/
structure Project where
  title : String
  description : Option String := none
  brand_id : Option String := none
  template_id : Option String := none
  timeline : Option Timeline := none
  media_ids : List String := []
  settings : Settings := defaultSettings
deriving Repr, DecidableEq

/-- Job params are free-form dicts; the two shapes actually built by
main.py are the render params of script_to_video (line 261) and the edit
params of ai_edit (line 286). -/
inductive JobParams where
  | render (language platform : String)
  | edit (command : String) (language : Option String)
deriving Repr, DecidableEq

/-- RenderJob model (main.py lines 62-69); status defaults to queued and
progress to 0, error is a plain optional string. -/
structure RenderJob where
  project_id : String
  job_type : String
  status : String := "queued"
  progress : Nat := 0
  params : Option JobParams := none
  output_url : Option String := none
  error : Option String := none
deriving Repr, DecidableEq

/-- ScriptToVideoRequest (main.py lines 71-77). -/
structure ScriptToVideoRequest where
  title : String
  script : String
  language : String := "en"
  platform : String := "youtube"
  voice_style : Option String := some "neutral"
  include_subtitles : Bool := true
deriving Repr, DecidableEq

/-- EditCommandRequest (main.py lines 79-82). -/
structure EditCommandRequest where
  project_id : String
  command : String
  language : Option String := some "en"
deriving Repr, DecidableEq

/-- One action of the simulated diff of ai_edit (main.py lines 278-284). -/
inductive DiffOp where
  | cut (fromTime toTime : String)
  | add_broll (query : String)
  | color (mode : String)
deriving Repr, DecidableEq

/-- The fixed simulated_diff value of ai_edit (main.py lines 278-284). -/
def simulated_diff : List DiffOp :=
  [DiffOp.cut "00:10" "00:14", DiffOp.add_broll "city skyline",
   DiffOp.color "auto-correct"]

/-- The persistent store: the project and renderjob collections, as
association lists keyed by document id (most recent write first). -/
structure Db where
  projects : List (String × Project) := []
  renderjobs : List (String × RenderJob) := []
deriving Repr, DecidableEq

/-- The empty database. -/
def emptyDb : Db := {}

/-- Python string slicing s[:n]: the first n code points of s. -/
def strSlice (s : String) (n : Nat) : String := ⟨s.data.take n⟩

/-- create_project endpoint (main.py lines 210-213): stores the submitted
project verbatim under a fresh id and returns the id. -/
def create_project (db : Db) (newId : String) (p : Project) : Db × String :=
  ({ db with projects := (newId, p) :: db.projects }, newId)

/-- The Project built by script_to_video (main.py lines 240-252). -/
def script_to_video_project (req : ScriptToVideoRequest) : Project :=
  { title := req.title,
    description := some ("Auto-generated from script for " ++ req.platform),
    timeline := some
      { tracks :=
          [{ type := "voiceover", language := some req.language,
             style := req.voice_style },
           { type := "subtitles", enabled := some req.include_subtitles },
           { type := "visuals", source := some "stock+ai" }],
        script_excerpt := some (strSlice req.script 400) },
    settings :=
      { resolution := "1080p", fps := 30,
        aspect := if req.platform = "tiktok" then "9:16" else "16:9",
        platforms := [req.platform] } }

/-- The RenderJob built by script_to_video (main.py lines 256-263). -/
def script_to_video_job (projectId : String) (req : ScriptToVideoRequest) :
    RenderJob :=
  { project_id := projectId, job_type := "render", status := "completed",
    progress := 100,
    params := some (JobParams.render req.language req.platform),
    output_url :=
      some "https://storage.googleapis.com/vr-demo-assets/sample-output.mp4" }

/-- Response shape of script_to_video (main.py lines 266-271). -/
structure ScriptToVideoResponse where
  project_id : String
  job_id : String
  status : String
  output_url : Option String
deriving Repr, DecidableEq

/-- script_to_video endpoint (main.py lines 237-271): creates a project and
a render job, both stored, and returns ids, status and output url. The
fresh ids generated by create_document are the pid and jid arguments. -/
def script_to_video (db : Db) (pid jid : String)
    (req : ScriptToVideoRequest) : Db × ScriptToVideoResponse :=
  let project := script_to_video_project req
  let db1 : Db := { db with projects := (pid, project) :: db.projects }
  let job := script_to_video_job pid req
  let db2 : Db := { db1 with renderjobs := (jid, job) :: db1.renderjobs }
  (db2,
   { project_id := pid, job_id := jid, status := "completed",
     output_url := job.output_url })

/-- The RenderJob built by ai_edit (main.py lines 285-287). -/
def ai_edit_job (req : EditCommandRequest) : RenderJob :=
  { project_id := req.project_id, job_type := "edit", status := "completed",
    progress := 100,
    params := some (JobParams.edit req.command req.language),
    output_url :=
      some "https://storage.googleapis.com/vr-demo-assets/edited-preview.mp4" }

/-- Response shape of ai_edit (main.py line 289). -/
structure AiEditResponse where
  job_id : String
  status : String
  diff : List DiffOp
  preview_url : Option String
deriving Repr, DecidableEq

/-- ai_edit endpoint (main.py lines 274-289): stores an edit job and returns
its id, status, the simulated diff and a preview url. The fresh id generated
by create_document is the jid argument. -/
def ai_edit (db : Db) (jid : String) (req : EditCommandRequest) :
    Db × AiEditResponse :=
  let job := ai_edit_job req
  let db1 : Db := { db with renderjobs := (jid, job) :: db.renderjobs }
  (db1,
   { job_id := jid, status := "completed", diff := simulated_diff,
     preview_url := job.output_url })

/-- Result of the job-status lookup endpoint: each HTTPException branch of
get_render_job (main.py lines 310-320) becomes a structured constructor,
as FastAPI turns these exceptions into HTTP responses at the interface. -/
inductive LookupResult (α : Type) where
  | ok (a : α)
  | invalidId
  | notFound
  | dbUnavailable
deriving Repr, DecidableEq

/-- A bson ObjectId can be built from a string exactly when it is a 24
character hex string; otherwise ObjectId(job_id) raises (caught at
main.py lines 314-317). -/
def isValidObjectId (s : String) : Bool :=
  s.length == 24 &&
    s.all (fun c => c.isDigit || ("abcdefABCDEF".toList.contains c))

/-- get_render_job endpoint (main.py lines 310-320). The database handle can
be absent (db is None), modelled by an Option Db. -/
def get_render_job (odb : Option Db) (job_id : String) :
    LookupResult RenderJob :=
  match odb with
  | none => LookupResult.dbUnavailable
  | some db =>
    if isValidObjectId job_id then
      match db.renderjobs.lookup job_id with
      | some j => LookupResult.ok j
      | none => LookupResult.notFound
    else LookupResult.invalidId

/-- The terminal job statuses of the state machine in the spec. -/
def terminalStatuses : List String := ["completed", "failed", "cancelled"]

/-- Result of the cancel operation described by the spec. -/
inductive CancelResult where
  | notFound
  | nowCancelled
  | signalled
  | alreadyTerminal (status : String)
deriving Repr, DecidableEq

/-- Modelled from the spec: the repository source has no cancel operation;
spec section 4.4 describes it as: signals the cancel token if running, or
transitions directly to cancelled if still queued; no-op (returns current
status) if already terminal. The store update is a shadowing insert, so
List.lookup sees the updated record. -/
def cancel (db : Db) (job_id : String) : Db × CancelResult :=
  match db.renderjobs.lookup job_id with
  | none => (db, CancelResult.notFound)
  | some j =>
    if j.status = "queued" then
      ({ db with renderjobs :=
           (job_id, { j with status := "cancelled" }) :: db.renderjobs },
       CancelResult.nowCancelled)
    else if j.status = "running" then
      (db, CancelResult.signalled)
    else (db, CancelResult.alreadyTerminal j.status)

/-- A track references a media id missing from the given media list when its
source field names a media id not in the list (spec section 4.1 wording). -/
def track_refs_missing (media_ids : List String) (t : Track) : Bool :=
  match t.source with
  | some m => !(media_ids.contains m)
  | none => false

/-- The timeline of a project references a missing media id when some track
does (spec section 4.1 wording; main.py never evaluates this condition). -/
def timeline_refs_missing (p : Project) : Bool :=
  match p.timeline with
  | some tl => tl.tracks.any (track_refs_missing p.media_ids)
  | none => false

/-- Example script-to-video request used for the concrete evaluations of
claim C1. -/
def reqC1 : ScriptToVideoRequest := { title := "demo", script := "hello" }

/-- Claim C1 counterexample: at a concrete submission, the RenderJob record
stored by script_to_video has status completed, not queued, so the job never
starts out queued. -/
theorem C1_counterexample :
    ((script_to_video emptyDb "p1" "j1" reqC1).1).renderjobs.lookup "j1"
      = some (script_to_video_job "p1" reqC1)
    ∧ (script_to_video_job "p1" reqC1).status = "completed"
    ∧ (script_to_video_job "p1" reqC1).status ≠ "queued" := by
  refine ⟨rfl, rfl, by decide⟩

/-- Claim C1 (amended): for every job submission via script_to_video or
ai_edit, the RenderJob record stored at submission time already has status
completed with progress 100; it is never stored as queued or running
(completion is simulated as instantaneous). -/
theorem C1_job_stored_completed (db : Db) (pid jid : String)
    (req : ScriptToVideoRequest) (ereq : EditCommandRequest) :
    ((script_to_video db pid jid req).1).renderjobs.lookup jid
        = some (script_to_video_job pid req)
    ∧ (script_to_video_job pid req).status = "completed"
    ∧ (script_to_video_job pid req).status ≠ "queued"
    ∧ (script_to_video_job pid req).status ≠ "running"
    ∧ ((ai_edit db jid ereq).1).renderjobs.lookup jid = some (ai_edit_job ereq)
    ∧ (ai_edit_job ereq).status = "completed"
    ∧ (ai_edit_job ereq).status ≠ "queued" := by
  refine ⟨?_, rfl, by simp [script_to_video_job], by simp [script_to_video_job],
    ?_, rfl, by simp [ai_edit_job]⟩
  · simp [script_to_video, List.lookup]
  · simp [ai_edit, List.lookup]

/-- Claim C9: the diff returned by ai_edit is the fixed simulated_diff,
identical across any two requests, whatever their command text and whatever
state the store is in. -/
theorem C9_diff_constant (db1 db2 : Db) (jid1 jid2 : String)
    (req1 req2 : EditCommandRequest) :
    (ai_edit db1 jid1 req1).2.diff = (ai_edit db2 jid2 req2).2.diff
    ∧ (ai_edit db1 jid1 req1).2.diff = simulated_diff := ⟨rfl, rfl⟩

/-- Claim C10: the project created by script_to_video stores a
script_excerpt equal to the first 400 characters of the submitted script,
hence of length min 400 (length script), and equal to the whole script when
the script has at most 400 characters. -/
theorem C10_script_excerpt (req : ScriptToVideoRequest) :
    ((script_to_video_project req).timeline.bind (fun t => t.script_excerpt))
      = some (strSlice req.script 400)
    ∧ (strSlice req.script 400).length = min 400 req.script.length
    ∧ (req.script.length ≤ 400 → strSlice req.script 400 = req.script) := by
  refine ⟨rfl, ?_, ?_⟩
  · show (req.script.data.take 400).length = min 400 req.script.data.length
    exact List.length_take 400 req.script.data
  · intro h
    show (⟨req.script.data.take 400⟩ : String) = req.script
    have h' : req.script.data.length ≤ 400 := h
    rw [List.take_of_length_le h']

/-- Example script-to-video request used for the concrete evaluation of
claim C10. -/
def reqC10 : ScriptToVideoRequest := { title := "short", script := "brief" }

/-- Claim C10 witness: on a concrete script of fewer than 400 characters the
stored excerpt is the whole script. -/
theorem C10_script_excerpt_witness :
    strSlice reqC10.script 400 = reqC10.script :=
  (C10_script_excerpt reqC10).2.2 (by decide)

/-- Claim C5: every RenderJob record the system creates (via script_to_video
or ai_edit) has its output reference set exactly when its status is
completed, and its error field unset; error is never populated by any code
path, so the condition that errors are set only on failure holds with no
failing record ever created. -/
theorem C5_output_iff_completed (db : Db) (pid jid : String)
    (req : ScriptToVideoRequest) (ereq : EditCommandRequest) :
    ((script_to_video db pid jid req).1).renderjobs.lookup jid
        = some (script_to_video_job pid req)
    ∧ ((script_to_video_job pid req).output_url.isSome
        ↔ (script_to_video_job pid req).status = "completed")
    ∧ (script_to_video_job pid req).error = none
    ∧ ((ai_edit db jid ereq).1).renderjobs.lookup jid = some (ai_edit_job ereq)
    ∧ ((ai_edit_job ereq).output_url.isSome
        ↔ (ai_edit_job ereq).status = "completed")
    ∧ (ai_edit_job ereq).error = none := by
  refine ⟨?_, ?_, rfl, ?_, ?_, rfl⟩
  · simp [script_to_video, List.lookup]
  · simp [script_to_video_job]
  · simp [ai_edit, List.lookup]
  · simp [ai_edit_job]

/-- A project whose timeline references the media id m1, absent from its
(empty) media list; used for the concrete evaluations of claim C2. -/
def projC2 : Project :=
  { title := "p", media_ids := [],
    timeline := some
      { tracks := [{ type := "visuals", source := some "m1" }] } }

/-- A store holding projC2; used for the concrete evaluations of claim C2. -/
def dbC2 : Db := { projects := [("aaaaaaaaaaaaaaaaaaaaaaaa", projC2)] }

/-- An edit request against projC2; used for claim C2. -/
def editReqC2 : EditCommandRequest :=
  { project_id := "aaaaaaaaaaaaaaaaaaaaaaaa", command := "cut from 1 to 2" }

/-- Claim C2 counterexample: a submission against a project whose timeline
references a missing media id is not rejected; a RenderJob record is created
and the response reports success. -/
theorem C2_counterexample :
    timeline_refs_missing projC2 = true
    ∧ dbC2.projects.lookup "aaaaaaaaaaaaaaaaaaaaaaaa" = some projC2
    ∧ ((ai_edit dbC2 "j1" editReqC2).1).renderjobs.lookup "j1"
        = some (ai_edit_job editReqC2)
    ∧ (ai_edit dbC2 "j1" editReqC2).2.status = "completed" := by
  refine ⟨by decide, by decide, by simp [ai_edit, List.lookup], rfl⟩

/-- Claim C2 (amended): no timeline validation is performed anywhere; even
when the owning project of a submission has a timeline referencing a media
id missing from its media list, the submission succeeds and a RenderJob
record is created (there is no InvalidTimeline rejection path in the
code). -/
theorem C2_no_validation (db : Db) (jid : String) (req : EditCommandRequest)
    (proj : Project)
    (_hp : db.projects.lookup req.project_id = some proj)
    (_hmiss : timeline_refs_missing proj = true) :
    ((ai_edit db jid req).1).renderjobs.lookup jid = some (ai_edit_job req)
    ∧ (ai_edit db jid req).2.status = "completed"
    ∧ (ai_edit db jid req).2.job_id = jid := by
  refine ⟨?_, rfl, rfl⟩
  simp [ai_edit, List.lookup]

/-- Claim C2 witness: the amended theorem applied to the concrete store and
request of the counterexample. -/
theorem C2_no_validation_witness :
    ((ai_edit dbC2 "j1" editReqC2).1).renderjobs.lookup "j1"
      = some (ai_edit_job editReqC2) :=
  (C2_no_validation dbC2 "j1" editReqC2 projC2 (by decide) (by decide)).1

/-- Claim C3 counterexample: a malformed job id (not a 24 character hex
string) makes get_render_job answer with the invalid-id response, which is
neither the stored job nor the not-found response. -/
theorem C3_counterexample :
    get_render_job (some emptyDb) "not-an-objectid"
      = LookupResult.invalidId
    ∧ (LookupResult.invalidId : LookupResult RenderJob)
        ≠ LookupResult.notFound
    ∧ (∀ j : RenderJob,
        (LookupResult.invalidId : LookupResult RenderJob)
          ≠ LookupResult.ok j) := by
  refine ⟨by decide, by decide, fun j h => by cases h⟩

/-- Claim C3 (amended): the job-status lookup is a total function that
always answers with a structured result: the job stored under the id, a
not-found response, an invalid-id response for a malformed ObjectId, or a
database-unavailable response; it never escapes with an exception. -/
theorem C3_lookup_total (odb : Option Db) (id : String) :
    (∃ db j, odb = some db ∧ get_render_job odb id = LookupResult.ok j
        ∧ db.renderjobs.lookup id = some j)
    ∨ get_render_job odb id = LookupResult.notFound
    ∨ get_render_job odb id = LookupResult.invalidId
    ∨ get_render_job odb id = LookupResult.dbUnavailable := by
  cases odb with
  | none => right; right; right; rfl
  | some db =>
    by_cases h : isValidObjectId id = true
    · cases hl : db.renderjobs.lookup id with
      | some j =>
        left
        exact ⟨db, j, rfl, by simp [get_render_job, h, hl], hl⟩
      | none => right; left; simp [get_render_job, h, hl]
    · right; right; left
      simp [get_render_job, h]

/-- Claim C4: every RenderJob the code creates is stored with progress
exactly 100, which lies in [0,100]; and no endpoint ever updates a stored
job record (existing records are preserved verbatim by both job-creating
operations), so the progress of each job is constant, hence monotonically
non-decreasing, after creation. -/
theorem C4_progress_bounds (db : Db) (pid jid id : String)
    (req : ScriptToVideoRequest) (ereq : EditCommandRequest) (j : RenderJob)
    (hne : id ≠ jid) :
    ((script_to_video db pid jid req).1).renderjobs.lookup jid
        = some (script_to_video_job pid req)
    ∧ (script_to_video_job pid req).progress = 100
    ∧ (script_to_video_job pid req).progress ≤ 100
    ∧ ((ai_edit db jid ereq).1).renderjobs.lookup jid = some (ai_edit_job ereq)
    ∧ (ai_edit_job ereq).progress = 100
    ∧ (db.renderjobs.lookup id = some j →
        ((script_to_video db pid jid req).1).renderjobs.lookup id = some j
        ∧ ((ai_edit db jid ereq).1).renderjobs.lookup id = some j) := by
  have hb : (id == jid) = false := beq_eq_false_iff_ne.mpr hne
  refine ⟨?_, rfl, by simp [script_to_video_job], ?_, rfl, fun hj => ⟨?_, ?_⟩⟩
  · simp [script_to_video, List.lookup]
  · simp [ai_edit, List.lookup]
  · simp [script_to_video, List.lookup, hb, hj]
  · simp [ai_edit, List.lookup, hb, hj]

/-- A pre-existing job record; used for the concrete evaluation of claim
C4. -/
def jobC4 : RenderJob := { project_id := "p0", job_type := "render" }

/-- A store holding jobC4 under id j0; used for the concrete evaluation of
claim C4. -/
def dbC4 : Db := { renderjobs := [("j0", jobC4)] }

/-- An edit request used for the concrete evaluation of claim C4. -/
def editReqC4 : EditCommandRequest := { project_id := "p0", command := "c" }

/-- Claim C4 witness: the theorem applied at a concrete store with an
existing job j0 and fresh job id j1, showing the created job has progress
100 and the existing record is untouched. -/
theorem C4_progress_bounds_witness :
    (script_to_video_job "p1" reqC1).progress = 100
    ∧ ((script_to_video dbC4 "p1" "j1" reqC1).1).renderjobs.lookup "j0"
        = some jobC4 :=
  ⟨(C4_progress_bounds dbC4 "p1" "j1" "j0" reqC1 editReqC4 jobC4
      (by decide)).2.1,
   ((C4_progress_bounds dbC4 "p1" "j1" "j0" reqC1 editReqC4 jobC4
      (by decide)).2.2.2.2.2 (by decide)).1⟩

/-- A project whose settings carry an empty platforms list; pydantic accepts
it, since settings is a free-form dict. Used for claim C6. -/
def projC6 : Project :=
  { title := "no platforms",
    settings :=
      { resolution := "1080p", fps := 30, aspect := "16:9",
        platforms := [] } }

/-- Claim C6 counterexample: create_project stores a client-supplied project
with an empty platforms list verbatim, so the non-emptiness invariant does
not hold after every project-creating operation. -/
theorem C6_counterexample :
    ((create_project emptyDb "p1" projC6).1).projects.lookup "p1"
      = some projC6
    ∧ projC6.settings.platforms = [] := ⟨by decide, rfl⟩

/-- Claim C6 (amended): script_to_video always stores a project whose
platforms list is the singleton of the requested platform, hence non-empty,
and the default settings also carry a non-empty platforms list; but
create_project stores client-supplied settings unvalidated, so the
invariant holds after create_project only when the submitted project
already satisfies it. -/
theorem C6_platforms (db : Db) (pid jid : String)
    (req : ScriptToVideoRequest) (p : Project)
    (h : p.settings.platforms ≠ []) :
    (script_to_video_project req).settings.platforms = [req.platform]
    ∧ (script_to_video_project req).settings.platforms ≠ []
    ∧ ((script_to_video db pid jid req).1).projects.lookup pid
        = some (script_to_video_project req)
    ∧ (((create_project db pid p).1).projects.lookup pid = some p
        ∧ p.settings.platforms ≠ [])
    ∧ defaultSettings.platforms ≠ [] := by
  refine ⟨rfl, by simp [script_to_video_project], ?_, ⟨?_, h⟩,
    by simp [defaultSettings]⟩
  · simp [script_to_video, List.lookup]
  · simp [create_project, List.lookup]

/-- Claim C6 witness: the amended theorem at a concrete request and a
concrete project with a one-element platforms list. -/
theorem C6_platforms_witness :
    (script_to_video_project reqC1).settings.platforms = [reqC1.platform] :=
  (C6_platforms emptyDb "p1" "j1" reqC1
    { title := "ok" } (by decide)).1

/-- A pre-existing project record; used for the concrete evaluation of
claim C7. -/
def projC7 : Project := { title := "existing" }

/-- A store holding projC7 under id p0; used for claim C7. -/
def dbC7 : Db := { projects := [("p0", projC7)] }

/-- Claim C7: the job-creating operations do not modify any existing stored
project: ai_edit leaves the project collection untouched, and
script_to_video only inserts a new project under a fresh id, preserving
every record stored before. -/
theorem C7_projects_frame (db : Db) (pid jid id : String)
    (req : ScriptToVideoRequest) (ereq : EditCommandRequest) (p : Project)
    (hfresh : db.projects.lookup pid = none)
    (hp : db.projects.lookup id = some p) :
    ((script_to_video db pid jid req).1).projects.lookup id = some p
    ∧ ((ai_edit db jid ereq).1).projects = db.projects := by
  constructor
  · have hne : id ≠ pid := by
      intro he
      rw [he, hfresh] at hp
      cases hp
    have hb : (id == pid) = false := beq_eq_false_iff_ne.mpr hne
    simp [script_to_video, List.lookup, hb, hp]
  · rfl

/-- Claim C7 witness: the theorem at a concrete store holding project p0,
with fresh ids p1 and j1: the stored record of p0 is unchanged. -/
theorem C7_projects_frame_witness :
    ((script_to_video dbC7 "p1" "j1" reqC1).1).projects.lookup "p0"
      = some projC7 :=
  (C7_projects_frame dbC7 "p1" "j1" "p0" reqC1 editReqC4 projC7
    (by decide) (by decide)).1

/-- Claim C8: for the cancel operation modelled from the spec, a queued job
transitions directly to cancelled (no worker is involved: the operation
only rewrites the stored record), and a job already in a terminal state is
left untouched, answering with its current status. -/
theorem C8_cancel (db : Db) (jid : String) (j : RenderJob)
    (hj : db.renderjobs.lookup jid = some j) :
    (j.status = "queued" →
        (cancel db jid).2 = CancelResult.nowCancelled
        ∧ ((cancel db jid).1).renderjobs.lookup jid
            = some { j with status := "cancelled" })
    ∧ (j.status ∈ terminalStatuses →
        (cancel db jid).1 = db
        ∧ (cancel db jid).2 = CancelResult.alreadyTerminal j.status) := by
  constructor
  · intro hq
    constructor
    · simp [cancel, hj, hq]
    · simp [cancel, hj, hq, List.lookup]
  · intro ht
    simp only [terminalStatuses, List.mem_cons, List.not_mem_nil,
      or_false] at ht
    rcases ht with h | h | h <;>
      simp [cancel, hj, h]

/-- A queued job record; used for the concrete evaluation of claim C8. -/
def jobQueuedC8 : RenderJob := { project_id := "p", job_type := "render" }

/-- A completed job record; used for the concrete evaluation of claim C8. -/
def jobDoneC8 : RenderJob :=
  { project_id := "p", job_type := "render", status := "completed",
    progress := 100 }

/-- A store with a queued job j1 and a completed job j2; used for claim
C8. -/
def dbC8 : Db := { renderjobs := [("j1", jobQueuedC8), ("j2", jobDoneC8)] }

/-- Claim C8 witness: the theorem at the concrete store, cancelling the
queued job j1 (it becomes cancelled) and the completed job j2 (no-op
answering the current status). -/
theorem C8_cancel_witness :
    (cancel dbC8 "j1").2 = CancelResult.nowCancelled
    ∧ (cancel dbC8 "j2").1 = dbC8
    ∧ (cancel dbC8 "j2").2 = CancelResult.alreadyTerminal "completed" :=
  ⟨((C8_cancel dbC8 "j1" jobQueuedC8 (by decide)).1 rfl).1,
   ((C8_cancel dbC8 "j2" jobDoneC8 (by decide)).2 (by decide)).1,
   ((C8_cancel dbC8 "j2" jobDoneC8 (by decide)).2 (by decide)).2⟩
